import Mathlib

/-!
Verification development for the GreaseMonkey AI backend core
(`src/backend/services.py`, `src/backend/models.py`).

The Python code is shallowly embedded: the Supabase-backed state is an
explicit `Store` value, each database call is a function that may fail
(`Except Unit`), Python `try/except` blocks become wrappers that pattern
match on the `Except` result, and floating-point relevance scores are
modelled as rationals.  The embedded functions keep the source names.
-/

/-- Mirrors `UserTier` in `models.py`. -/
inductive UserTier where
  | FREE_TIER
  | WEEKEND_WARRIOR
  | MASTER_TECH
deriving DecidableEq

/-- Mirrors `UsageType` in `models.py`. -/
inductive UsageType where
  | ASK_QUERY
  | DOCUMENT_UPLOAD
  | DOCUMENT_SEARCH
  | TTS_REQUEST
  | STT_REQUEST
deriving DecidableEq

/-- Mirrors `TierLimits` in `models.py` (optional fields mean unlimited). -/
structure TierLimits where
  max_daily_asks : Option Int := none
  max_monthly_asks : Option Int := none
  max_document_uploads : Option Int := none
  max_vehicles : Option Int := none
  max_storage_mb : Option ℚ := none
  max_monthly_document_uploads : Option Int := none
  document_upload_enabled : Bool := true
  tts_enabled : Bool := true
  stt_enabled : Bool := true
  cost_per_ask_cents : Option Int := none
  cost_per_upload_cents : Option Int := none
  cost_per_tts_cents : Option Int := none
  cost_per_stt_cents : Option Int := none
deriving DecidableEq

/-- `MAX_STORAGE_PAID_MB` default from `services.py`. -/
def MAX_STORAGE_PAID_MB : ℚ := 1000

/-- Mirrors the `TIER_CONFIGS` table in `services.py` (lines 160-192). -/
def TIER_CONFIGS : UserTier → TierLimits
  | .FREE_TIER =>
    { max_daily_asks := some 3
      max_document_uploads := some 0
      max_vehicles := some 1
      max_storage_mb := some 0
      document_upload_enabled := false
      tts_enabled := true
      stt_enabled := true }
  | .WEEKEND_WARRIOR =>
    { max_daily_asks := none
      max_monthly_asks := some 50
      max_document_uploads := some 20
      max_vehicles := none
      max_storage_mb := some MAX_STORAGE_PAID_MB
      document_upload_enabled := true
      tts_enabled := true
      stt_enabled := true }
  | .MASTER_TECH =>
    { max_daily_asks := none
      max_monthly_asks := some 200
      max_document_uploads := none
      max_vehicles := none
      max_storage_mb := none
      document_upload_enabled := true
      tts_enabled := true
      stt_enabled := true }

/-- `PricingService.get_tier_limits`: `TIER_CONFIGS.get(tier, free default)`;
the lookup is total so the default branch is unreachable. -/
def get_tier_limits (tier : UserTier) : TierLimits := TIER_CONFIGS tier

/-- A calendar date; `month` stands for the year-month prefix of the ISO
string and `dayOfMonth` for the day component, so the SQL pattern match
`date LIKE "YYYY-MM-%"` becomes equality on `month`. -/
structure CalendarDate where
  month : Int
  dayOfMonth : Int
deriving DecidableEq

/-- A row of the `tier_overrides` table.  `override_tier` is the raw string
stored in the database (parsed by `UserTier(...)` at read time); timestamps
are modelled as integers (ISO strings compare chronologically). -/
structure OverrideRow where
  user_id : String
  override_tier : String
  expires_at : Int
  created_at : Int
deriving DecidableEq

/-- A row of the `users` table (the fields `get_user_tier` touches). -/
structure UserRow where
  user_id : String
  tier : String
deriving DecidableEq

/-- A row of the `daily_usage_stats` table. -/
structure DailyRow where
  id : Nat
  user_id : String
  date : CalendarDate
  ask_queries : Int
  document_uploads : Int
  document_searches : Int
  tts_requests : Int
  stt_requests : Int
  total_cost_cents : Int
deriving DecidableEq

/-- A row of the `monthly_usage_stats` table. -/
structure MonthlyRow where
  user_id : String
  year_month : Int
  ask_queries : Int
  document_uploads : Int
  document_searches : Int
  tts_requests : Int
  stt_requests : Int
  total_cost_cents : Int
deriving DecidableEq

/-- The Supabase-backed state visible to `PricingService`.
`supabase` is the truthiness of the client handle (`if not self.supabase`),
`documents_count` is the `count="exact"` result of the `documents` table per
user, `usage_records` counts inserted usage events, and `next_id` generates
fresh ids for `daily_usage_stats` inserts. -/
structure Store where
  supabase : Bool
  overrides : List OverrideRow
  users : List UserRow
  daily : List DailyRow
  monthly : List MonthlyRow
  documents_count : String → Nat
  usage_records : Nat
  next_id : Nat

/-- The database call sites of `PricingService`; a `Fault` says which of
them raise on this run. -/
inductive DbCall where
  | selOverrides
  | selUsers
  | insUser
  | selDailyCheck
  | selMonthly
  | selDailyLike
  | countDocs
  | insUsageRecord
  | selDailyUpd
  | updDaily
  | insDaily
deriving DecidableEq

/-- Which database calls raise an exception during this run. -/
def Fault : Type := DbCall → Bool

/-- The fault-free run: no database call raises. -/
def noFault : Fault := fun _ => false

/-- `table("tier_overrides").select("*").eq("user_id", uid).gte("expires_at", now)`. -/
def dbSelectOverrides (f : Fault) (s : Store) (uid : String) (now : Int) :
    Except Unit (List OverrideRow) :=
  if f .selOverrides then .error () else
    .ok (s.overrides.filter (fun r => r.user_id == uid && now ≤ r.expires_at))

/-- `table("users").select("tier").eq("user_id", uid)`. -/
def dbSelectUsers (f : Fault) (s : Store) (uid : String) :
    Except Unit (List UserRow) :=
  if f .selUsers then .error () else
    .ok (s.users.filter (fun r => r.user_id == uid))

/-- `table("users").insert(...)`. -/
def dbInsertUser (f : Fault) (s : Store) (row : UserRow) : Except Unit Store :=
  if f .insUser then .error () else
    .ok { s with users := s.users ++ [row] }

/-- `table("daily_usage_stats").select("*").eq("user_id", uid).eq("date", d)`;
the call-site tag distinguishes the read in `check_usage_limit` from the one
in `_update_daily_stats`. -/
def dbSelectDaily (c : DbCall) (f : Fault) (s : Store) (uid : String)
    (d : CalendarDate) : Except Unit (List DailyRow) :=
  if f c then .error () else
    .ok (s.daily.filter (fun r => r.user_id == uid && r.date == d))

/-- `table("monthly_usage_stats").select("*").eq("user_id", uid).eq("year_month", ym)`. -/
def dbSelectMonthly (f : Fault) (s : Store) (uid : String) (ym : Int) :
    Except Unit (List MonthlyRow) :=
  if f .selMonthly then .error () else
    .ok (s.monthly.filter (fun r => r.user_id == uid && r.year_month == ym))

/-- `table("daily_usage_stats").select("*").eq("user_id", uid).like("date", ym-%)`. -/
def dbSelectDailyLike (f : Fault) (s : Store) (uid : String) (ym : Int) :
    Except Unit (List DailyRow) :=
  if f .selDailyLike then .error () else
    .ok (s.daily.filter (fun r => r.user_id == uid && r.date.month == ym))

/-- `table("documents").select("id", count="exact").eq("user_id", uid)`. -/
def dbCountDocuments (f : Fault) (s : Store) (uid : String) : Except Unit Nat :=
  if f .countDocs then .error () else .ok (s.documents_count uid)

/-- `table("usage_records").insert(usage_record)`. -/
def dbInsertUsageRecord (f : Fault) (s : Store) : Except Unit Store :=
  if f .insUsageRecord then .error () else
    .ok { s with usage_records := s.usage_records + 1 }

/-- `table("daily_usage_stats").update(stats).eq("id", i)`. -/
def dbUpdateDaily (f : Fault) (s : Store) (i : Nat) (row : DailyRow) :
    Except Unit Store :=
  if f .updDaily then .error () else
    .ok { s with daily := s.daily.map (fun r => if r.id == i then row else r) }

/-- `table("daily_usage_stats").insert(new_stats)`; the database generates
the fresh row id. -/
def dbInsertDaily (f : Fault) (s : Store) (mk : Nat → DailyRow) :
    Except Unit Store :=
  if f .insDaily then .error () else
    .ok { s with daily := s.daily ++ [mk s.next_id], next_id := s.next_id + 1 }

/-- `UserTier(raw)`: parsing an unknown tier string raises `ValueError`. -/
def parse_tier : String → Except Unit UserTier
  | "free_tier" => .ok .FREE_TIER
  | "weekend_warrior" => .ok .WEEKEND_WARRIOR
  | "master_tech" => .ok .MASTER_TECH
  | _ => .error ()

/-- Ordering of override rows by creation time, as used by
`sorted(override_result.data, key=lambda x: x['created_at'])`. -/
def createdLe (a b : OverrideRow) : Prop := a.created_at ≤ b.created_at

instance : DecidableRel createdLe :=
  fun a b => inferInstanceAs (Decidable (a.created_at ≤ b.created_at))

instance : IsTotal OverrideRow createdLe :=
  ⟨fun a b => Int.le_total a.created_at b.created_at⟩

instance : IsTrans OverrideRow createdLe :=
  ⟨fun _ _ _ h1 h2 => le_trans h1 h2⟩

/-- Placeholder row for `getLastD`; never selected because `[-1]` is only
taken on a non-empty list. -/
def dummy_override : OverrideRow := ⟨"", "", 0, 0⟩

/-- The body of `PricingService.get_user_tier` inside its `try` block
(lines 783-805): any raising database call or tier-string parse aborts the
whole computation. -/
def get_user_tier_body (f : Fault) (s : Store) (now : Int) (uid : String) :
    Except Unit (UserTier × Store) :=
  match dbSelectOverrides f s uid now with
  | .error e => .error e
  | .ok ovr =>
    if ovr.isEmpty then
      match dbSelectUsers f s uid with
      | .error e => .error e
      | .ok us =>
        match us with
        | u :: _ =>
          match parse_tier u.tier with
          | .error e => .error e
          | .ok t => .ok (t, s)
        | [] =>
          match dbInsertUser f s ⟨uid, "free_tier"⟩ with
          | .error e => .error e
          | .ok s1 => .ok (.FREE_TIER, s1)
    else
      match parse_tier
          ((List.insertionSort createdLe ovr).getLastD dummy_override).override_tier with
      | .error e => .error e
      | .ok t => .ok (t, s)

/-- `PricingService.get_user_tier` (lines 778-809): missing client or any
exception falls back to the free tier. -/
def get_user_tier (f : Fault) (s : Store) (now : Int) (uid : String) :
    UserTier × Store :=
  if !s.supabase then (.FREE_TIER, s) else
    match get_user_tier_body f s now uid with
    | .ok r => r
    | .error _ => (.FREE_TIER, s)

/-- The stats object built by `PricingService._get_monthly_usage`. -/
structure MonthlyUsageStats where
  user_id : String
  year_month : Int
  ask_queries : Int := 0
  document_uploads : Int := 0
  document_searches : Int := 0
  tts_requests : Int := 0
  stt_requests : Int := 0
  total_cost_cents : Int := 0
deriving DecidableEq

/-- Body of `PricingService._get_monthly_usage` inside its `try` block
(lines 896-933): use the precomputed monthly row when present, otherwise
sum the month's daily rows. -/
def get_monthly_usage_body (f : Fault) (s : Store) (uid : String) (ym : Int) :
    Except Unit MonthlyUsageStats :=
  match dbSelectMonthly f s uid ym with
  | .error e => .error e
  | .ok (r :: _) =>
    .ok ⟨uid, ym, r.ask_queries, r.document_uploads, r.document_searches,
      r.tts_requests, r.stt_requests, r.total_cost_cents⟩
  | .ok [] =>
    match dbSelectDailyLike f s uid ym with
    | .error e => .error e
    | .ok ds =>
      .ok ⟨uid, ym,
        (ds.map (·.ask_queries)).sum,
        (ds.map (·.document_uploads)).sum,
        (ds.map (·.document_searches)).sum,
        (ds.map (·.tts_requests)).sum,
        (ds.map (·.stt_requests)).sum,
        (ds.map (·.total_cost_cents)).sum⟩

/-- `PricingService._get_monthly_usage` (lines 894-937): any exception
yields all-zero stats. -/
def get_monthly_usage (f : Fault) (s : Store) (uid : String) (ym : Int) :
    MonthlyUsageStats :=
  match get_monthly_usage_body f s uid ym with
  | .ok r => r
  | .error _ => ⟨uid, ym, 0, 0, 0, 0, 0, 0⟩

/-- `PricingService._get_total_document_count` (lines 939-946): any
exception yields 0. -/
def get_total_document_count (f : Fault) (s : Store) (uid : String) : Nat :=
  match dbCountDocuments f s uid with
  | .ok n => n
  | .error _ => 0

/-- The denial message for the free-tier daily ask ceiling. -/
def daily_limit_msg (used m : Int) : String :=
  "Daily limit reached (" ++ toString used ++ "/" ++ toString m ++
    " questions used). Upgrade to Weekend Warrior for 50 questions/month."

/-- The denial message for the Weekend Warrior monthly ask ceiling. -/
def monthly_limit_msg (used m : Int) : String :=
  "Monthly limit reached (" ++ toString used ++ "/" ++ toString m ++
    " questions used). Upgrade to Master Tech for 200 questions/month."

/-- The denial message for free-tier document uploads. -/
def upload_limit_msg_free : String :=
  "Document upload limit reached. Upgrade to Weekend Warrior for document uploads."

/-- The denial message for the Weekend Warrior upload ceiling. -/
def upload_limit_msg_ww (total m : Int) : String :=
  "Document upload limit reached (" ++ toString total ++ "/" ++ toString m ++
    "). Upgrade to Master Tech for unlimited documents."

/-- The tail of `check_usage_limit`'s body (lines 987-999): the document
upload ceiling shared by all non-Master tiers, then the final allow.
`_get_total_document_count` absorbs its own errors, so this part is total. -/
def check_upload_tail (tier : UserTier) (tier_limits : TierLimits) (f : Fault)
    (s1 : Store) (uid : String) (ut : UsageType) : (Bool × String) × Store :=
  if ut = .DOCUMENT_UPLOAD then
    match tier_limits.max_document_uploads with
    | some mu =>
      let total : Int := (get_total_document_count f s1 uid : Int)
      if total ≥ mu then
        if tier = .FREE_TIER then ((false, upload_limit_msg_free), s1)
        else if tier = .WEEKEND_WARRIOR then ((false, upload_limit_msg_ww total mu), s1)
        else ((true, "OK"), s1)
      else ((true, "OK"), s1)
    | none => ((true, "OK"), s1)
  else ((true, "OK"), s1)

/-- Body of `PricingService.check_usage_limit` inside its `try` block
(lines 953-999), with the static policy table abstracted as `cfg` (the
source reads it through `self.get_tier_limits`).  Structure mirrors the
Python: an early unconditional allow for Master Tech, a daily-ask check for
the free tier, a monthly-ask check for Weekend Warrior (whose inner reads
absorb their own errors), then the shared document-upload ceiling.  The
only exception that can escape is the free-tier daily-stats read; an
escaping exception carries the store as of the raise, because writes
committed before it — the lazy user insert `get_user_tier` may have
performed — stay persisted through Python's `except`. -/
def check_usage_limit_body (cfg : UserTier → TierLimits) (f : Fault)
    (s : Store) (now : Int) (today : CalendarDate) (uid : String)
    (ut : UsageType) : Except Store ((Bool × String) × Store) :=
  let tr := get_user_tier f s now uid
  let tier := tr.1
  let s1 := tr.2
  let tier_limits := cfg tier
  if tier = .MASTER_TECH then
    .ok ((true, "OK"), s1)
  else if tier = .FREE_TIER then
    match dbSelectDaily .selDailyCheck f s1 uid today with
    | .error _ => .error s1
    | .ok rows =>
      let deny1 : Option String :=
        if ut = .ASK_QUERY then
          match tier_limits.max_daily_asks with
          | some m =>
            let used := match rows.head? with
              | some r => r.ask_queries
              | none => 0
            if used ≥ m then some (daily_limit_msg used m) else none
          | none => none
        else none
      match deny1 with
      | some msg => .ok ((false, msg), s1)
      | none => .ok (check_upload_tail tier tier_limits f s1 uid ut)
  else if tier = .WEEKEND_WARRIOR then
    let deny1 : Option String :=
      if ut = .ASK_QUERY then
        match tier_limits.max_monthly_asks with
        | some m =>
          let used := (get_monthly_usage f s1 uid today.month).ask_queries
          if used ≥ m then some (monthly_limit_msg used m) else none
        | none => none
      else none
    match deny1 with
    | some msg => .ok ((false, msg), s1)
    | none => .ok (check_upload_tail tier tier_limits f s1 uid ut)
  else
    .ok (check_upload_tail tier tier_limits f s1 uid ut)

/-- `check_usage_limit` with an explicit policy table: missing client or
any exception escaping the body allows the action (lines 950-951 and
1001-1003).  On an escaping exception the store is the one at the raise
point — the `except` block does not undo writes already committed. -/
def check_usage_limit_with (cfg : UserTier → TierLimits) (f : Fault)
    (s : Store) (now : Int) (today : CalendarDate) (uid : String)
    (ut : UsageType) : (Bool × String) × Store :=
  if !s.supabase then ((true, "OK"), s) else
    match check_usage_limit_body cfg f s now today uid ut with
    | .ok r => r
    | .error serr => ((true, "OK"), serr)

/-- `PricingService.check_usage_limit` (lines 948-1003), with the real
`TIER_CONFIGS` policy table. -/
def check_usage_limit (f : Fault) (s : Store) (now : Int)
    (today : CalendarDate) (uid : String) (ut : UsageType) :
    (Bool × String) × Store :=
  check_usage_limit_with TIER_CONFIGS f s now today uid ut

/-- The per-kind counter increment of `_update_daily_stats` (lines 862-871). -/
def bump_counter (r : DailyRow) : UsageType → DailyRow
  | .ASK_QUERY => { r with ask_queries := r.ask_queries + 1 }
  | .DOCUMENT_UPLOAD => { r with document_uploads := r.document_uploads + 1 }
  | .DOCUMENT_SEARCH => { r with document_searches := r.document_searches + 1 }
  | .TTS_REQUEST => { r with tts_requests := r.tts_requests + 1 }
  | .STT_REQUEST => { r with stt_requests := r.stt_requests + 1 }

/-- The fresh row `_update_daily_stats` inserts when no row exists for
(user, today) (lines 878-889). -/
def new_daily_row (uid : String) (today : CalendarDate) (ut : UsageType)
    (cost_cents : Int) (i : Nat) : DailyRow :=
  { id := i
    user_id := uid
    date := today
    ask_queries := if ut = .ASK_QUERY then 1 else 0
    document_uploads := if ut = .DOCUMENT_UPLOAD then 1 else 0
    document_searches := if ut = .DOCUMENT_SEARCH then 1 else 0
    tts_requests := if ut = .TTS_REQUEST then 1 else 0
    stt_requests := if ut = .STT_REQUEST then 1 else 0
    total_cost_cents := cost_cents }

/-- Body of `PricingService._update_daily_stats` inside its `try` block
(lines 852-889): read the (user, today) row, increment the matching
counter and write it back, or insert a fresh row. -/
def update_daily_stats_body (f : Fault) (s : Store) (today : CalendarDate)
    (uid : String) (ut : UsageType) (cost_cents : Int) : Except Unit Store :=
  match dbSelectDaily .selDailyUpd f s uid today with
  | .error e => .error e
  | .ok (stats :: _) =>
    let bumped := bump_counter stats ut
    let updated := { bumped with total_cost_cents := bumped.total_cost_cents + cost_cents }
    dbUpdateDaily f s stats.id updated
  | .ok [] =>
    dbInsertDaily f s (new_daily_row uid today ut cost_cents)

/-- `PricingService._update_daily_stats` (lines 848-892): any exception is
logged and swallowed, leaving the store as it was at the failing call. -/
def update_daily_stats (f : Fault) (s : Store) (today : CalendarDate)
    (uid : String) (ut : UsageType) (cost_cents : Int) : Store :=
  match update_daily_stats_body f s today uid ut cost_cents with
  | .ok s1 => s1
  | .error _ => s

/-- `PricingService.track_usage` (lines 815-846): resolve the tier (for
logging), append a usage record, then update the daily rollup; the cost is
always 0 in the subscription-only model.  A failing usage-record insert
returns `false`; `_update_daily_stats` never raises. -/
def track_usage (f : Fault) (s : Store) (now : Int) (today : CalendarDate)
    (uid : String) (ut : UsageType) : Bool × Store :=
  if !s.supabase then (true, s) else
    let tr := get_user_tier f s now uid
    let s1 := tr.2
    match dbInsertUsageRecord f s1 with
    | .error _ => (false, s1)
    | .ok s2 => (true, update_daily_stats f s2 today uid ut 0)

/-- The vehicle-related fields of a document chunk's metadata dictionary
(`doc.metadata` in `DocumentManager`); `none` stands for an absent key. -/
structure ChunkMeta where
  car_make : Option String := none
  car_model : Option String := none
  car_year : Option Int := none
deriving DecidableEq

/-- Python truthiness of an optional string (`None` and `""` are falsy). -/
def truthy_str : Option String → Bool
  | none => false
  | some s => !(s == "")

/-- Python truthiness of an optional integer (`None` and `0` are falsy). -/
def truthy_int : Option Int → Bool
  | none => false
  | some n => !(n == 0)

/-- `DocumentManager._matches_car_criteria` (lines 578-600): keep the hit
unless a truthy filter field and a truthy metadata field disagree;
make/model compare case-insensitively, years within a tolerance of 3. -/
def matches_car_criteria (metadata : ChunkMeta) (car_make car_model : Option String)
    (car_year : Option Int) : Bool :=
  if !(truthy_str car_make || truthy_str car_model || truthy_int car_year) then
    true
  else if truthy_str car_make && truthy_str metadata.car_make &&
      !((metadata.car_make.getD "").toLower == (car_make.getD "").toLower) then
    false
  else if truthy_str car_model && truthy_str metadata.car_model &&
      !((metadata.car_model.getD "").toLower == (car_model.getD "").toLower) then
    false
  else if truthy_int car_year && truthy_int metadata.car_year &&
      decide (3 < ((metadata.car_year.getD 0) - (car_year.getD 0)).natAbs) then
    false
  else
    true

/-- One hit returned by `similarity_search_with_score`: a document and the
index's native distance (a float in the source, modelled as a rational). -/
structure Hit where
  content : String
  meta : ChunkMeta
  distance : ℚ
deriving DecidableEq

/-- Mirrors `DocumentSearchResult` in `models.py` (the fields the search
claims are about). -/
structure DocumentSearchResult where
  content : String
  metadata : ChunkMeta
  relevance_score : ℚ
deriving DecidableEq

/-- The environment `search_documents` runs in: whether an OpenAI key is
configured, whether building the embeddings client succeeds, and per
collection whether its Chroma directory exists and what querying it
returns (`error` = the query raises). -/
structure SearchEnv where
  openai_key : Bool
  embed_ok : Bool
  user_exists : Bool
  user_query : Except Unit (List Hit)
  system_exists : Bool
  system_query : Except Unit (List Hit)

/-- One collection block of `search_documents` (lines 529-547 and 551-568):
a missing directory contributes nothing, a raising query is caught and
contributes nothing, and otherwise the kept hits become results with
`relevance_score = 1 - distance`. -/
def collection_results (ex : Bool) (q : Except Unit (List Hit))
    (car_make car_model : Option String) (car_year : Option Int) :
    List DocumentSearchResult :=
  if ex then
    match q with
    | .error _ => []
    | .ok hits =>
      (hits.filter (fun h => matches_car_criteria h.meta car_make car_model car_year)).map
        (fun h => ⟨h.content, h.meta, 1 - h.distance⟩)
  else []

/-- Ordering of results by descending relevance, as used by
`results.sort(key=lambda x: x.relevance_score, reverse=True)`. -/
def score_ge (a b : DocumentSearchResult) : Prop :=
  b.relevance_score ≤ a.relevance_score

instance : DecidableRel score_ge :=
  fun a b => inferInstanceAs (Decidable (b.relevance_score ≤ a.relevance_score))

instance : IsTotal DocumentSearchResult score_ge :=
  ⟨fun a b => le_total b.relevance_score a.relevance_score⟩

instance : IsTrans DocumentSearchResult score_ge :=
  ⟨fun _ _ _ h1 h2 => le_trans h2 h1⟩

/-- The pooled kept hits of both collections, in input order (the user's
private collection before the system collection). -/
def pooled_results (env : SearchEnv) (car_make car_model : Option String)
    (car_year : Option Int) : List DocumentSearchResult :=
  collection_results env.user_exists env.user_query car_make car_model car_year ++
    collection_results env.system_exists env.system_query car_make car_model car_year

/-- `DocumentManager.search_documents` (lines 516-576): no key or a failing
embeddings client yields `[]`; otherwise pool the kept hits of the user and
system collections, sort by descending relevance (Python's `list.sort` is
stable, modelled by stable insertion sort) and truncate to `limit`. -/
def search_documents (env : SearchEnv) (car_make car_model : Option String)
    (car_year : Option Int) (limit : Nat) : List DocumentSearchResult :=
  if !env.openai_key then []
  else if !env.embed_ok then []
  else
    (List.insertionSort score_ge
      (pooled_results env car_make car_model car_year)).take limit

/-- The daily-usage row recorded for (user, date): the first matching row,
as read by both `check_usage_limit` and `_update_daily_stats`. -/
def daily_row_for (s : Store) (uid : String) (d : CalendarDate) : Option DailyRow :=
  (s.daily.filter (fun r => r.user_id == uid && r.date == d)).head?

/-- The recorded daily ask count for (user, date): the `ask_queries` field
of the daily row, 0 when no row exists. -/
def daily_ask_count (s : Store) (uid : String) (d : CalendarDate) : Int :=
  match daily_row_for s uid d with
  | some r => r.ask_queries
  | none => 0

/-- The month's recorded ask count: the rollup row when one exists,
otherwise the sum over the month's daily rows (the spec's `MonthlyCount`). -/
def monthly_ask_count (s : Store) (uid : String) (ym : Int) : Int :=
  match (s.monthly.filter (fun r => r.user_id == uid && r.year_month == ym)) with
  | r :: _ => r.ask_queries
  | [] => ((s.daily.filter (fun r => r.user_id == uid && r.date.month == ym)).map
      (·.ask_queries)).sum

/-- The store with all expired overrides (expiry before `now`) removed. -/
def drop_expired (s : Store) (now : Int) : Store :=
  { s with overrides := s.overrides.filter (fun r => decide (now ≤ r.expires_at)) }

/-- The three feature flags of a tier policy. -/
inductive FeatureFlag where
  | upload
  | tts
  | stt
deriving DecidableEq

/-- Reads a feature flag off a tier policy. -/
def flag_enabled (l : TierLimits) : FeatureFlag → Bool
  | .upload => l.document_upload_enabled
  | .tts => l.tts_enabled
  | .stt => l.stt_enabled

/-- The action kind a feature flag governs. -/
def flag_usage_type : FeatureFlag → UsageType
  | .upload => .DOCUMENT_UPLOAD
  | .tts => .TTS_REQUEST
  | .stt => .STT_REQUEST

/-- The counter field of a daily row for a given action kind. -/
def counter_of (r : DailyRow) : UsageType → Int
  | .ASK_QUERY => r.ask_queries
  | .DOCUMENT_UPLOAD => r.document_uploads
  | .DOCUMENT_SEARCH => r.document_searches
  | .TTS_REQUEST => r.tts_requests
  | .STT_REQUEST => r.stt_requests

/-- Well-formedness of the daily-usage table: row ids are pairwise distinct
and there is at most one row per (user, date). -/
def wf_daily (s : Store) : Prop :=
  s.daily.Pairwise (fun a b => a.id ≠ b.id) ∧
    ∀ a ∈ s.daily, ∀ b ∈ s.daily, a.user_id = b.user_id → a.date = b.date → a = b

theorem get_user_tier_body_frame {f : Fault} {s : Store} {now : Int}
    {uid : String} {t : UserTier} {s' : Store}
    (h : get_user_tier_body f s now uid = .ok (t, s')) :
    s'.supabase = s.supabase ∧ s'.daily = s.daily ∧ s'.monthly = s.monthly ∧
      s'.documents_count = s.documents_count ∧ s'.next_id = s.next_id := by
  unfold get_user_tier_body dbSelectOverrides dbSelectUsers dbInsertUser at h
  repeat' split at h
  all_goals simp_all
  obtain ⟨-, rfl⟩ := h
  rename_i heq
  split at heq
  · cases heq
  · cases heq
    simp

theorem get_user_tier_frame (f : Fault) (s : Store) (now : Int) (uid : String) :
    ((get_user_tier f s now uid).2).supabase = s.supabase ∧
      ((get_user_tier f s now uid).2).daily = s.daily ∧
      ((get_user_tier f s now uid).2).monthly = s.monthly ∧
      ((get_user_tier f s now uid).2).documents_count = s.documents_count ∧
      ((get_user_tier f s now uid).2).next_id = s.next_id := by
  unfold get_user_tier
  split
  · exact ⟨rfl, rfl, rfl, rfl, rfl⟩
  · cases h : get_user_tier_body f s now uid with
    | error e => simp
    | ok r =>
      obtain ⟨t, s'⟩ := r
      simpa using get_user_tier_body_frame h

theorem noFault_eq (c : DbCall) : noFault c = false := rfl

theorem get_monthly_usage_ask (s : Store) (uid : String) (ym : Int) :
    (get_monthly_usage noFault s uid ym).ask_queries = monthly_ask_count s uid ym := by
  unfold get_monthly_usage get_monthly_usage_body dbSelectMonthly dbSelectDailyLike
    monthly_ask_count
  simp only [noFault_eq, Bool.false_eq_true, if_false]
  rcases hml : List.filter (fun r => r.user_id == uid && r.year_month == ym) s.monthly with
    _ | ⟨r, tl⟩ <;> simp [hml]

theorem monthly_ask_count_congr {s1 s : Store} (hm : s1.monthly = s.monthly)
    (hd : s1.daily = s.daily) (uid : String) (ym : Int) :
    monthly_ask_count s1 uid ym = monthly_ask_count s uid ym := by
  unfold monthly_ask_count
  rw [hm, hd]

theorem check_free_ask_shape (cfg : UserTier → TierLimits) (s : Store)
    (now : Int) (today : CalendarDate) (uid : String)
    (hdb : s.supabase = true)
    (ht : (get_user_tier noFault s now uid).1 = .FREE_TIER) :
    check_usage_limit_with cfg noFault s now today uid .ASK_QUERY =
      (match (cfg .FREE_TIER).max_daily_asks with
       | some m =>
         if daily_ask_count s uid today ≥ m then
           ((false, daily_limit_msg (daily_ask_count s uid today) m),
             (get_user_tier noFault s now uid).2)
         else ((true, "OK"), (get_user_tier noFault s now uid).2)
       | none => ((true, "OK"), (get_user_tier noFault s now uid).2)) := by
  have hframe := (get_user_tier_frame noFault s now uid).2.1
  unfold check_usage_limit_with check_usage_limit_body dbSelectDaily
  simp only [hdb, noFault_eq, Bool.not_true, Bool.false_eq_true, if_false, ht, hframe]
  unfold daily_ask_count daily_row_for check_upload_tail
  simp
  rcases hmax : (cfg UserTier.FREE_TIER).max_daily_asks with _ | m <;> simp [hmax]
  split <;> rename_i heq <;> split at heq <;> simp_all
  rename_i hlt
  rw [← heq, if_neg (not_le.mpr hlt)]

theorem check_ww_ask_shape (cfg : UserTier → TierLimits) (s : Store)
    (now : Int) (today : CalendarDate) (uid : String)
    (hdb : s.supabase = true)
    (ht : (get_user_tier noFault s now uid).1 = .WEEKEND_WARRIOR) :
    check_usage_limit_with cfg noFault s now today uid .ASK_QUERY =
      (match (cfg .WEEKEND_WARRIOR).max_monthly_asks with
       | some m =>
         if monthly_ask_count s uid today.month ≥ m then
           ((false, monthly_limit_msg (monthly_ask_count s uid today.month) m),
             (get_user_tier noFault s now uid).2)
         else ((true, "OK"), (get_user_tier noFault s now uid).2)
       | none => ((true, "OK"), (get_user_tier noFault s now uid).2)) := by
  have hf := get_user_tier_frame noFault s now uid
  have hms : (get_monthly_usage noFault (get_user_tier noFault s now uid).2 uid
      today.month).ask_queries = monthly_ask_count s uid today.month := by
    rw [get_monthly_usage_ask]
    exact monthly_ask_count_congr hf.2.2.1 hf.2.1 uid today.month
  unfold check_usage_limit_with check_usage_limit_body
  simp only [hdb, noFault_eq, Bool.not_true, Bool.false_eq_true, if_false, ht, hms]
  unfold check_upload_tail
  simp
  rcases hmax : (cfg UserTier.WEEKEND_WARRIOR).max_monthly_asks with _ | m <;> simp [hmax]
  split <;> rename_i heq <;> split at heq <;> simp_all
  rename_i hlt
  rw [← heq, if_neg (not_le.mpr hlt)]

theorem check_master_shape (cfg : UserTier → TierLimits) (s : Store)
    (now : Int) (today : CalendarDate) (uid : String) (ut : UsageType)
    (hdb : s.supabase = true)
    (ht : (get_user_tier noFault s now uid).1 = .MASTER_TECH) :
    check_usage_limit_with cfg noFault s now today uid ut =
      ((true, "OK"), (get_user_tier noFault s now uid).2) := by
  unfold check_usage_limit_with check_usage_limit_body
  simp [hdb, ht]

/-- The date used by the concrete quota scenarios. -/
def c1_date : CalendarDate := ⟨7, 15⟩

/-- Free-tier scenario store: user `u` on the free tier with 3 asks
recorded today. -/
def c1_store : Store :=
  ⟨true, [], [⟨"u", "free_tier"⟩], [⟨1, "u", c1_date, 3, 0, 0, 0, 0, 0⟩],
    [], fun _ => 0, 0, 2⟩

/-- C1: for a user who resolves to the free tier, when the policy's daily
ask ceiling is `some N` the check denies exactly when the recorded daily
ask count has reached `N`, and when the ceiling is `none` it allows; in the
concrete scenario (free tier, ceiling 3, 3 asks recorded today) the check
returns `false` with a reason containing "3/3". -/
theorem C1_free_daily_quota
    (cfg : UserTier → TierLimits) (s : Store) (now : Int) (today : CalendarDate)
    (uid : String) (hdb : s.supabase = true)
    (ht : (get_user_tier noFault s now uid).1 = .FREE_TIER) :
    (∀ N : Int, (cfg .FREE_TIER).max_daily_asks = some N →
      (((check_usage_limit_with cfg noFault s now today uid .ASK_QUERY).1.1 = false) ↔
        N ≤ daily_ask_count s uid today)) ∧
    ((cfg .FREE_TIER).max_daily_asks = none →
      (check_usage_limit_with cfg noFault s now today uid .ASK_QUERY).1.1 = true) ∧
    (check_usage_limit noFault c1_store 0 c1_date "u" .ASK_QUERY).1 =
      (false, "Daily limit reached (3/3 questions used). Upgrade to Weekend Warrior for 50 questions/month.") ∧
    (∃ a b : String,
      (check_usage_limit noFault c1_store 0 c1_date "u" .ASK_QUERY).1.2 =
        a ++ "3/3" ++ b) := by
  refine ⟨?_, ?_, ?_, ?_⟩
  · intro N hN
    rw [check_free_ask_shape cfg s now today uid hdb ht, hN]
    by_cases hle : N ≤ daily_ask_count s uid today
    · simp [ge_iff_le, hle]
    · simp [ge_iff_le, hle]
  · intro hN
    rw [check_free_ask_shape cfg s now today uid hdb ht, hN]
  · decide
  · exact ⟨"Daily limit reached (",
      " questions used). Upgrade to Weekend Warrior for 50 questions/month.",
      by decide⟩

/-- C1 witness: the general parts of `C1_free_daily_quota` instantiated on
the concrete free-tier store with ceiling 3 and 3 recorded asks. -/
theorem C1_free_daily_quota_witness :
    c1_store.supabase = true ∧
    (get_user_tier noFault c1_store 0 "u").1 = .FREE_TIER ∧
    (TIER_CONFIGS .FREE_TIER).max_daily_asks = some 3 ∧
    ((check_usage_limit_with TIER_CONFIGS noFault c1_store 0 c1_date "u"
        .ASK_QUERY).1.1 = false ↔ (3 : Int) ≤ daily_ask_count c1_store "u" c1_date) := by
  refine ⟨rfl, by decide, rfl, ?_⟩
  exact (C1_free_daily_quota TIER_CONFIGS c1_store 0 c1_date "u" rfl
    (by decide)).1 3 rfl

/-- Master Tech scenario store: user `u` stored as `master_tech` with a
monthly rollup of 200 asks for month 7. -/
def c2_store : Store :=
  ⟨true, [], [⟨"u", "master_tech"⟩], [], [⟨"u", 7, 200, 0, 0, 0, 0, 0⟩],
    fun _ => 0, 0, 1⟩

/-- Weekend Warrior scenario store: user `w` stored as `weekend_warrior`
with a monthly rollup of 50 asks for month 7. -/
def c2ww_store : Store :=
  ⟨true, [], [⟨"w", "weekend_warrior"⟩], [], [⟨"w", 7, 50, 0, 0, 0, 0, 0⟩],
    fun _ => 0, 0, 1⟩

/-- C2 counterexample: the claim says a tier policy with a monthly ceiling
M denies once the month's count reaches M; for Master Tech the policy sets
M = 200 and the recorded count is 200, yet the check allows, because
`check_usage_limit` returns early for Master Tech before any limit check. -/
theorem C2_counterexample :
    (get_user_tier noFault c2_store 0 "u").1 = .MASTER_TECH ∧
    (TIER_CONFIGS .MASTER_TECH).max_monthly_asks = some 200 ∧
    (200 : Int) ≤ monthly_ask_count c2_store "u" 7 ∧
    (check_usage_limit noFault c2_store 0 c1_date "u" .ASK_QUERY).1 = (true, "OK") := by
  exact ⟨by decide, rfl, by decide, by decide⟩

/-- C2 (amended): the monthly ceiling is enforced only for the Weekend
Warrior tier — a Weekend Warrior user is denied exactly when the current
month's ask count has reached 50 — while a Master Tech user is always
allowed by the early return, despite the configured ceiling of 200. -/
theorem C2_monthly_quota (s : Store) (now : Int) (today : CalendarDate)
    (uid : String) (hdb : s.supabase = true)
    (ht : (get_user_tier noFault s now uid).1 = .WEEKEND_WARRIOR) :
    ((check_usage_limit noFault s now today uid .ASK_QUERY).1.1 = false ↔
      (50 : Int) ≤ monthly_ask_count s uid today.month) ∧
    (∀ (s2 : Store) (now2 : Int) (today2 : CalendarDate) (uid2 : String)
        (ut : UsageType), s2.supabase = true →
      (get_user_tier noFault s2 now2 uid2).1 = .MASTER_TECH →
      (check_usage_limit noFault s2 now2 today2 uid2 ut).1 = (true, "OK")) := by
  constructor
  · unfold check_usage_limit
    rw [check_ww_ask_shape TIER_CONFIGS s now today uid hdb ht]
    by_cases hle : (50 : Int) ≤ monthly_ask_count s uid today.month
    · simp [ge_iff_le, hle, TIER_CONFIGS]
    · simp [ge_iff_le, hle, TIER_CONFIGS]
  · intro s2 now2 today2 uid2 ut hdb2 ht2
    unfold check_usage_limit
    rw [check_master_shape TIER_CONFIGS s2 now2 today2 uid2 ut hdb2 ht2]

/-- C2 witness: the amended claim instantiated on a Weekend Warrior store
whose month holds exactly 50 recorded asks. -/
theorem C2_monthly_quota_witness :
    c2ww_store.supabase = true ∧
    (get_user_tier noFault c2ww_store 0 "w").1 = .WEEKEND_WARRIOR ∧
    ((check_usage_limit noFault c2ww_store 0 c1_date "w" .ASK_QUERY).1.1 = false ↔
      (50 : Int) ≤ monthly_ask_count c2ww_store "w" c1_date.month) := by
  exact ⟨rfl, by decide,
    (C2_monthly_quota c2ww_store 0 c1_date "w" rfl (by decide)).1⟩

theorem getLastD_mem {α : Type _} {l : List α} (d : α) (h : l ≠ []) :
    l.getLastD d ∈ l := by
  cases l with
  | nil => exact absurd rfl h
  | cons b t =>
    rw [List.getLastD_cons]
    exact List.getLastD_mem_cons t b

theorem pairwise_getLastD {α : Type _} {r : α → α → Prop} :
    ∀ (l : List α) (d : α), l.Pairwise r → ∀ x ∈ l,
      x = l.getLastD d ∨ r x (l.getLastD d) := by
  intro l
  induction l with
  | nil => intro d _ x hx; cases hx
  | cons a t ih =>
    intro d hp x hx
    rw [List.getLastD_cons]
    cases t with
    | nil =>
      left
      rw [List.getLastD_nil]
      simpa using hx
    | cons b u =>
      rcases List.mem_cons.mp hx with hxa | hxt
      · subst hxa
        right
        refine (List.pairwise_cons.mp hp).1 _ ?_
        rw [List.getLastD_cons]
        exact List.getLastD_mem_cons u b
      · exact ih _ (List.pairwise_cons.mp hp).2 x hxt

theorem get_user_tier_fst_congr (s s' : Store) (now : Int) (uid : String)
    (h1 : s.supabase = s'.supabase) (h2 : s.users = s'.users)
    (h3 : s.overrides.filter (fun r => r.user_id == uid && decide (now ≤ r.expires_at)) =
      s'.overrides.filter (fun r => r.user_id == uid && decide (now ≤ r.expires_at))) :
    (get_user_tier noFault s now uid).1 = (get_user_tier noFault s' now uid).1 := by
  unfold get_user_tier get_user_tier_body dbSelectOverrides dbSelectUsers dbInsertUser
  simp only [noFault_eq, Bool.false_eq_true, if_false, h1, h2, h3]
  cases hb : s'.supabase with
  | false =>
    simp only [hb, Bool.not_false, eq_self_iff_true, if_true]
  | true =>
    simp only [hb, Bool.not_true, Bool.false_eq_true, if_false]
    rcases hfl : s'.overrides.filter
        (fun r => r.user_id == uid && decide (now ≤ r.expires_at)) with _ | ⟨a, as⟩
    · simp only [hfl, List.isEmpty_nil, eq_self_iff_true, if_true]
      rcases hul : s'.users.filter (fun r => r.user_id == uid) with _ | ⟨u, us⟩
      · simp only [hul]
      · simp only [hul]
        rcases hpt : parse_tier u.tier with e | t' <;> simp only [hpt]
    · simp only [hfl, List.isEmpty_cons, Bool.false_eq_true, if_false]
      rcases hpt : parse_tier
          (((List.insertionSort createdLe (a :: as)).getLastD
            dummy_override).override_tier) with e | t' <;> simp only [hpt]

/-- C3 counterexample: a single override whose expiry equals the current
instant (so not strictly in the future) created most recently; the claim
says it is ignored (the stored tier, free, should win), but the code's
`gte("expires_at", now)` keeps it and returns its tier. -/
def c3_store : Store :=
  ⟨true, [⟨"u", "weekend_warrior", 100, 50⟩], [⟨"u", "free_tier"⟩], [], [],
    fun _ => 0, 0, 0⟩

/-- C3 counterexample: at `now = 100` the only override has
`expires_at = 100 ≤ now`, yet `get_user_tier` returns its tier instead of
the stored free tier. -/
theorem C3_counterexample :
    (∀ o ∈ c3_store.overrides, o.expires_at ≤ (100 : Int)) ∧
    c3_store.users = [⟨"u", "free_tier"⟩] ∧
    (get_user_tier noFault c3_store 100 "u").1 = .WEEKEND_WARRIOR := by
  decide

/-- C3 (amended): among a user's overrides with `expires_at ≥ now` (the
code keeps the boundary instant), the one with the strictly latest
`created_at` wins and its tier is returned; overrides with
`expires_at < now` are ignored — removing them never changes the resolved
tier — even when created most recently. -/
theorem C3_override_resolution (s : Store) (now : Int) (uid : String)
    (t : UserTier) (o : OverrideRow) (hdb : s.supabase = true)
    (ho : o ∈ s.overrides) (houid : o.user_id = uid)
    (hexp : now ≤ o.expires_at) (hparse : parse_tier o.override_tier = .ok t)
    (hmax : ∀ o' ∈ s.overrides, o'.user_id = uid → now ≤ o'.expires_at →
      o' ≠ o → o'.created_at < o.created_at) :
    (get_user_tier noFault s now uid).1 = t ∧
    (∀ (s2 : Store) (now2 : Int) (uid2 : String),
      (get_user_tier noFault s2 now2 uid2).1 =
        (get_user_tier noFault (drop_expired s2 now2) now2 uid2).1) := by
  constructor
  · set p := (fun r : OverrideRow => r.user_id == uid && decide (now ≤ r.expires_at))
      with hpdef
    set act := s.overrides.filter p with hact
    set srt := List.insertionSort createdLe act with hsrt
    set lst := srt.getLastD dummy_override with hlst
    have hoa : o ∈ act := List.mem_filter.mpr ⟨ho, by simp [hpdef, houid, hexp]⟩
    have hne : act ≠ [] := List.ne_nil_of_mem hoa
    have hperm : srt.Perm act := List.perm_insertionSort createdLe act
    have hsne : srt ≠ [] := by
      intro h
      exact hne (List.Perm.eq_nil ((h ▸ hperm).symm))
    have hlmem : lst ∈ act := hperm.mem_iff.mp (getLastD_mem _ hsne)
    have hpw : srt.Pairwise createdLe := List.sorted_insertionSort createdLe act
    have hos : o ∈ srt := hperm.mem_iff.mpr hoa
    have hlo : lst = o := by
      rcases pairwise_getLastD srt dummy_override hpw o hos with h | h
      · exact h.symm
      · by_contra hner
        have hf := List.mem_filter.mp hlmem
        have hcond := hf.2
        simp [hpdef] at hcond
        have h4 := hmax lst hf.1 hcond.1 hcond.2 hner
        have h5 : o.created_at ≤ lst.created_at := h
        omega
    unfold get_user_tier get_user_tier_body dbSelectOverrides
    simp only [noFault_eq, Bool.false_eq_true, if_false, hdb, Bool.not_true]
    rw [← hact, ← hsrt]
    have hie : act.isEmpty = false := by
      cases hq : act with
      | nil => exact absurd hq hne
      | cons a as => rfl
    rw [hie]
    simp only [Bool.false_eq_true, if_false]
    rw [← hlst, hlo, hparse]
  · intro s2 now2 uid2
    apply get_user_tier_fst_congr
    · rfl
    · rfl
    · show _ = (s2.overrides.filter (fun r => decide (now2 ≤ r.expires_at))).filter _
      rw [List.filter_filter]
      apply List.filter_congr
      intro a _
      cases h1 : (a.user_id == uid2) <;>
        cases h2 : (decide (now2 ≤ a.expires_at)) <;> simp [h1, h2]

/-- Witness store for C3: an expired override created most recently (at 80)
and an active one created at 60; at `now = 100` the active one must win. -/
def c3w_store : Store :=
  ⟨true, [⟨"u", "master_tech", 50, 80⟩, ⟨"u", "weekend_warrior", 200, 60⟩],
    [⟨"u", "free_tier"⟩], [], [], fun _ => 0, 0, 0⟩

/-- C3 witness: the amended resolution rule instantiated on `c3w_store`. -/
theorem C3_override_resolution_witness :
    c3w_store.supabase = true ∧
    (⟨"u", "weekend_warrior", 200, 60⟩ : OverrideRow) ∈ c3w_store.overrides ∧
    (100 : Int) ≤ (200 : Int) ∧
    parse_tier "weekend_warrior" = .ok .WEEKEND_WARRIOR ∧
    (get_user_tier noFault c3w_store 100 "u").1 = .WEEKEND_WARRIOR := by
  refine ⟨rfl, by decide, by decide, rfl, ?_⟩
  exact (C3_override_resolution c3w_store 100 "u" .WEEKEND_WARRIOR
    ⟨"u", "weekend_warrior", 200, 60⟩ rfl (by decide) rfl (by decide) rfl
    (by decide)).1

/-- The run on which every database call raises. -/
def allFault : Fault := fun _ => true

/-- The run on which only the tier-overrides select raises. -/
def ovrFault : Fault := fun c => c == DbCall.selOverrides

/-- Store for the C4 scenarios: a stored Weekend Warrior user with 3 asks
recorded today (which exhausts the free-tier daily ceiling). -/
def c4_store : Store :=
  ⟨true, [], [⟨"u", "weekend_warrior"⟩], [⟨1, "u", c1_date, 3, 0, 0, 0, 0, 0⟩],
    [], fun _ => 0, 0, 2⟩

/-- C4 counterexample: when the store raises inside `get_user_tier` (the
overrides select), the error is swallowed there and the check continues
with the default free tier — and then DENIES a stored Weekend Warrior user
under free-tier limits.  So a store failure during evaluation does surface
to the caller as a denial, contradicting the claim that the check returns
(true, allow) whenever the store errors during evaluation. -/
theorem C4_counterexample :
    ovrFault .selOverrides = true ∧
    c4_store.users = [⟨"u", "weekend_warrior"⟩] ∧
    (get_user_tier ovrFault c4_store 0 "u").1 = .FREE_TIER ∧
    (check_usage_limit ovrFault c4_store 0 c1_date "u" .ASK_QUERY).1.1 = false := by
  decide

/-- C4 (amended): an error escaping `check_usage_limit`'s own try block
yields (true, "OK") with the store as of the raise — the store after the
`get_user_tier` call, so a lazy user insert committed there stays
persisted — and any error inside `get_user_tier`'s try block yields the
default free tier; no store failure propagates as an exception — but an
error swallowed inside `get_user_tier` lets the check continue under the
free tier, which can still deny. -/
theorem C4_fail_open (f : Fault) (s : Store) (now : Int) (today : CalendarDate)
    (uid : String) (ut : UsageType) (hdb : s.supabase = true) :
    (∀ serr : Store,
      check_usage_limit_body TIER_CONFIGS f s now today uid ut = .error serr →
      check_usage_limit f s now today uid ut = ((true, "OK"), serr) ∧
      serr = (get_user_tier f s now uid).2) ∧
    (get_user_tier_body f s now uid = .error () →
      get_user_tier f s now uid = (.FREE_TIER, s)) := by
  constructor
  · intro serr h
    constructor
    · unfold check_usage_limit check_usage_limit_with
      simp only [hdb, Bool.not_true, Bool.false_eq_true, if_false, h]
    · unfold check_usage_limit_body at h
      simp only [] at h
      repeat' split at h
      all_goals try cases h
      all_goals rfl
  · intro h
    unfold get_user_tier
    simp only [hdb, Bool.not_true, Bool.false_eq_true, if_false, h]

/-- The run on which only the free-tier daily-stats select raises. -/
def dailyFault : Fault := fun c => c == DbCall.selDailyCheck

/-- Store for the C4 witness: no user row, so `get_user_tier` lazily
inserts one before the daily-stats read raises. -/
def c4b_store : Store :=
  ⟨true, [], [], [], [], fun _ => 0, 0, 0⟩

/-- C4 witness: with only the daily-stats select raising on a store without
a user row, the body errors carrying the store that already holds the
lazily inserted user row, and the check fails open with exactly that
store; with every call raising, `get_user_tier` fails open to the free
tier on the untouched store. -/
theorem C4_fail_open_witness :
    c4b_store.supabase = true ∧
    check_usage_limit_body TIER_CONFIGS dailyFault c4b_store 0 c1_date "u"
      .ASK_QUERY = .error (get_user_tier dailyFault c4b_store 0 "u").2 ∧
    ((get_user_tier dailyFault c4b_store 0 "u").2).users =
      c4b_store.users ++ [⟨"u", "free_tier"⟩] ∧
    check_usage_limit dailyFault c4b_store 0 c1_date "u" .ASK_QUERY =
      ((true, "OK"), (get_user_tier dailyFault c4b_store 0 "u").2) ∧
    get_user_tier_body allFault c4b_store 0 "u" = .error () ∧
    get_user_tier allFault c4b_store 0 "u" = (.FREE_TIER, c4b_store) := by
  refine ⟨rfl, rfl, rfl, ?_, rfl, ?_⟩
  · exact ((C4_fail_open dailyFault c4b_store 0 c1_date "u" .ASK_QUERY rfl).1
      (get_user_tier dailyFault c4b_store 0 "u").2 rfl).1
  · exact (C4_fail_open allFault c4b_store 0 c1_date "u" .ASK_QUERY rfl).2 rfl

theorem check_free_upload_shape (cfg : UserTier → TierLimits) (s : Store)
    (now : Int) (today : CalendarDate) (uid : String)
    (hdb : s.supabase = true)
    (ht : (get_user_tier noFault s now uid).1 = .FREE_TIER) :
    check_usage_limit_with cfg noFault s now today uid .DOCUMENT_UPLOAD =
      check_upload_tail .FREE_TIER (cfg .FREE_TIER) noFault
        (get_user_tier noFault s now uid).2 uid .DOCUMENT_UPLOAD := by
  unfold check_usage_limit_with check_usage_limit_body dbSelectDaily
  simp only [hdb, noFault_eq, Bool.not_true, Bool.false_eq_true, if_false, ht]
  simp

/-- C5: for every tier whose policy disables a feature flag (in
`TIER_CONFIGS` only the free tier's upload flag is disabled), the check
denies the corresponding action kind for any user resolving to that tier,
whatever counts the store records. -/
theorem C5_disabled_feature_denied (tier : UserTier) (fl : FeatureFlag)
    (hdis : flag_enabled (TIER_CONFIGS tier) fl = false)
    (s : Store) (now : Int) (today : CalendarDate) (uid : String)
    (hdb : s.supabase = true)
    (ht : (get_user_tier noFault s now uid).1 = tier) :
    (check_usage_limit noFault s now today uid (flag_usage_type fl)).1.1 = false := by
  cases tier <;> cases fl <;> try exact absurd hdis (by decide)
  unfold check_usage_limit
  have hsh := check_free_upload_shape TIER_CONFIGS s now today uid hdb ht
  simp only [flag_usage_type]
  rw [hsh]
  unfold check_upload_tail get_total_document_count dbCountDocuments
  simp only [noFault_eq, Bool.false_eq_true, if_false]
  simp [TIER_CONFIGS, ge_iff_le, Int.natCast_nonneg]

/-- Store for the C5 witness: a free-tier user with no recorded usage. -/
def c5_store : Store :=
  ⟨true, [], [⟨"u", "free_tier"⟩], [], [], fun _ => 0, 0, 0⟩

/-- C5 witness: the free tier disables document upload and the check
denies an upload for a free-tier user with an empty usage record. -/
theorem C5_disabled_feature_denied_witness :
    flag_enabled (TIER_CONFIGS .FREE_TIER) .upload = false ∧
    c5_store.supabase = true ∧
    (get_user_tier noFault c5_store 0 "u").1 = .FREE_TIER ∧
    (check_usage_limit noFault c5_store 0 c1_date "u"
      (flag_usage_type .upload)).1.1 = false := by
  refine ⟨rfl, rfl, by decide, ?_⟩
  exact C5_disabled_feature_denied .FREE_TIER .upload rfl c5_store 0 c1_date "u"
    rfl (by decide)

/-- Environment for the C6 scenario: one private hit at distance 1/10
(score 0.9) and one system hit at distance 1/20 (score 0.95). -/
def c6_env : SearchEnv :=
  ⟨true, true, true, .ok [⟨"usr", ⟨none, none, none⟩, 1/10⟩], true,
    .ok [⟨"sys", ⟨none, none, none⟩, 1/20⟩]⟩

/-- Environment for the C6 stability witness: two private hits with equal
scores, in input order "a" then "b". -/
def c6s_env : SearchEnv :=
  ⟨true, true, true,
    .ok [⟨"a", ⟨none, none, none⟩, 1/10⟩, ⟨"b", ⟨none, none, none⟩, 1/10⟩],
    false, .ok []⟩

/-- C6: the search output is sorted by descending relevance, holds at most
`limit` results, the sorting stage permutes the pooled kept hits (user
collection first, then system) and is stable (a pooled pair already in
descending order stays in that order), and on the concrete scenario
(private 0.9, system 0.95, limit 5) the result is [0.95, 0.9]. -/
theorem C6_search_ranking (env : SearchEnv) (mk mo : Option String)
    (yr : Option Int) (limit : Nat) :
    (search_documents env mk mo yr limit).Pairwise score_ge ∧
    (search_documents env mk mo yr limit).length ≤ limit ∧
    (List.insertionSort score_ge (pooled_results env mk mo yr)).Perm
      (pooled_results env mk mo yr) ∧
    (∀ a b : DocumentSearchResult, score_ge a b →
      List.Sublist [a, b] (pooled_results env mk mo yr) →
      List.Sublist [a, b] (List.insertionSort score_ge (pooled_results env mk mo yr))) ∧
    search_documents c6_env none none none 5 =
      [⟨"sys", ⟨none, none, none⟩, 19/20⟩, ⟨"usr", ⟨none, none, none⟩, 9/10⟩] := by
  refine ⟨?_, ?_, List.perm_insertionSort score_ge _, ?_, ?_⟩
  · unfold search_documents
    split
    · exact List.Pairwise.nil
    · split
      · exact List.Pairwise.nil
      · exact List.Pairwise.sublist (List.take_sublist _ _)
          (List.sorted_insertionSort score_ge _)
  · unfold search_documents
    split
    · simp
    · split
      · simp
      · exact List.length_take_le limit _
  · exact fun a b hab h => List.pair_sublist_insertionSort hab h
  · simp [search_documents, c6_env, pooled_results, collection_results,
      matches_car_criteria, truthy_str, truthy_int, score_ge,
      List.insertionSort, List.orderedInsert]
    norm_num

/-- C6 witness: stability instantiated — two equal-scored private hits in
input order stay in that order through the sort. -/
theorem C6_search_ranking_witness :
    score_ge ⟨"a", ⟨none, none, none⟩, 9/10⟩ ⟨"b", ⟨none, none, none⟩, 9/10⟩ ∧
    List.Sublist [(⟨"a", ⟨none, none, none⟩, 9/10⟩ : DocumentSearchResult),
      ⟨"b", ⟨none, none, none⟩, 9/10⟩] (pooled_results c6s_env none none none) ∧
    List.Sublist [(⟨"a", ⟨none, none, none⟩, 9/10⟩ : DocumentSearchResult),
      ⟨"b", ⟨none, none, none⟩, 9/10⟩]
        (List.insertionSort score_ge (pooled_results c6s_env none none none)) := by
  have h1 : score_ge (⟨"a", ⟨none, none, none⟩, 9/10⟩ : DocumentSearchResult)
      ⟨"b", ⟨none, none, none⟩, 9/10⟩ := by
    show (9 : ℚ)/10 ≤ 9/10
    norm_num
  have hpe : pooled_results c6s_env none none none =
      [⟨"a", ⟨none, none, none⟩, 9/10⟩, ⟨"b", ⟨none, none, none⟩, 9/10⟩] := by
    simp [c6s_env, pooled_results, collection_results, matches_car_criteria,
      truthy_str, truthy_int]
    norm_num
  have h2 : List.Sublist [(⟨"a", ⟨none, none, none⟩, 9/10⟩ : DocumentSearchResult),
      ⟨"b", ⟨none, none, none⟩, 9/10⟩] (pooled_results c6s_env none none none) := by
    rw [hpe]
  exact ⟨h1, h2,
    (C6_search_ranking c6s_env none none none 5).2.2.2.1 _ _ h1 h2⟩

theorem collection_results_eq_nil {ex : Bool} {q : Except Unit (List Hit)}
    (h : ex = false ∨ q = .error ()) (mk mo : Option String) (yr : Option Int) :
    collection_results ex q mk mo yr = [] := by
  unfold collection_results
  rcases h with h | h
  · simp [h]
  · cases ex <;> simp [h]

/-- C8: with the key configured and the embeddings client healthy, a
missing or failing user collection leaves exactly the ranked system
results (and symmetrically), and when both collections are missing or
failing the search returns the empty list — no collection failure aborts
the search. -/
theorem C8_collection_failure_isolated (env : SearchEnv)
    (mk mo : Option String) (yr : Option Int) (limit : Nat)
    (hk : env.openai_key = true) (he : env.embed_ok = true) :
    ((env.user_exists = false ∨ env.user_query = .error ()) →
      search_documents env mk mo yr limit =
        (List.insertionSort score_ge
          (collection_results env.system_exists env.system_query mk mo yr)).take limit) ∧
    ((env.system_exists = false ∨ env.system_query = .error ()) →
      search_documents env mk mo yr limit =
        (List.insertionSort score_ge
          (collection_results env.user_exists env.user_query mk mo yr)).take limit) ∧
    (((env.user_exists = false ∨ env.user_query = .error ()) ∧
        (env.system_exists = false ∨ env.system_query = .error ())) →
      search_documents env mk mo yr limit = []) := by
  refine ⟨?_, ?_, ?_⟩
  · intro h
    unfold search_documents pooled_results
    simp [hk, he, collection_results_eq_nil h]
  · intro h
    unfold search_documents pooled_results
    simp [hk, he, collection_results_eq_nil h]
  · intro ⟨h1, h2⟩
    unfold search_documents pooled_results
    simp [hk, he, collection_results_eq_nil h1, collection_results_eq_nil h2]

/-- Environment for the C8 witness: the user collection's query raises,
the system collection holds one hit. -/
def c8_env : SearchEnv :=
  ⟨true, true, true, .error (), true, .ok [⟨"sys", ⟨none, none, none⟩, 1/20⟩]⟩

/-- C8 witness: with the user collection failing, the search equals the
ranked system results. -/
theorem C8_collection_failure_isolated_witness :
    c8_env.openai_key = true ∧ c8_env.embed_ok = true ∧
    (c8_env.user_exists = false ∨ c8_env.user_query = .error ()) ∧
    search_documents c8_env none none none 5 =
      (List.insertionSort score_ge
        (collection_results c8_env.system_exists c8_env.system_query
          none none none)).take 5 := by
  exact ⟨rfl, rfl, Or.inr rfl,
    (C8_collection_failure_isolated c8_env none none none 5 rfl rfl).1 (Or.inr rfl)⟩

/-- Environment for the C9 counterexample: one system hit whose reported
distance is 2 (the top of the cosine-distance range). -/
def c9_env : SearchEnv :=
  ⟨true, true, false, .ok [], true, .ok [⟨"c", ⟨none, none, none⟩, 2⟩]⟩

/-- C9 counterexample: the claim says every produced relevance score lies
in [0,1] for every distance the index can return; with a reported distance
of 2 the code produces `1 - 2 = -1`, which is negative. -/
theorem C9_counterexample :
    search_documents c9_env none none none 5 =
      [⟨"c", ⟨none, none, none⟩, -1⟩] ∧
    ¬((0 : ℚ) ≤ (-1 : ℚ)) := by
  constructor
  · simp [search_documents, c9_env, pooled_results, collection_results,
      matches_car_criteria, truthy_str, truthy_int, score_ge,
      List.insertionSort, List.orderedInsert]
    norm_num
  · norm_num

/-- The distances a collection query reports all lie in [0,1]. -/
def distances_in_unit (q : Except Unit (List Hit)) : Prop :=
  ∀ hits, q = .ok hits → ∀ h ∈ hits, 0 ≤ h.distance ∧ h.distance ≤ 1

theorem mem_collection_bounds {q : Except Unit (List Hit)} {ex : Bool}
    {mk mo : Option String} {yr : Option Int} {r : DocumentSearchResult}
    (hq : distances_in_unit q) (hr : r ∈ collection_results ex q mk mo yr) :
    0 ≤ r.relevance_score ∧ r.relevance_score ≤ 1 := by
  unfold collection_results at hr
  by_cases hex : ex = true
  · rw [if_pos hex] at hr
    cases hqe : q with
    | error e => rw [hqe] at hr; cases hr
    | ok hits =>
      rw [hqe] at hr
      rcases List.mem_map.mp hr with ⟨h, hh, rfl⟩
      have hb := hq hits hqe h (List.mem_filter.mp hh).1
      constructor
      · show (0 : ℚ) ≤ 1 - h.distance
        linarith [hb.2]
      · show (1 : ℚ) - h.distance ≤ 1
        linarith [hb.1]
  · rw [if_neg hex] at hr
    cases hr

/-- C9 (amended): the relevance score of every produced result is
`1 - distance`, so whenever the reported distances lie in [0,1] every
produced score lies in [0,1]; the code does no clamping, so distances
above 1 yield negative scores (see the counterexample). -/
theorem C9_score_bounds (env : SearchEnv) (mk mo : Option String)
    (yr : Option Int) (limit : Nat)
    (hu : distances_in_unit env.user_query)
    (hs : distances_in_unit env.system_query) :
    ∀ r ∈ search_documents env mk mo yr limit,
      0 ≤ r.relevance_score ∧ r.relevance_score ≤ 1 := by
  intro r hr
  unfold search_documents at hr
  split at hr
  · cases hr
  · split at hr
    · cases hr
    · have h1 := List.mem_of_mem_take hr
      have h2 := ((List.perm_insertionSort score_ge _).mem_iff).mp h1
      unfold pooled_results at h2
      rcases List.mem_append.mp h2 with h | h
      · exact mem_collection_bounds hu h
      · exact mem_collection_bounds hs h

/-- Environment for the C9 witness: both collections report distances
inside [0,1]. -/
def c9w_env : SearchEnv :=
  ⟨true, true, true, .ok [⟨"u1", ⟨none, none, none⟩, 1/10⟩], true,
    .ok [⟨"s1", ⟨none, none, none⟩, 1/2⟩]⟩

/-- C9 witness: the bound applied to a concrete produced result. -/
theorem C9_score_bounds_witness :
    distances_in_unit c9w_env.user_query ∧
    distances_in_unit c9w_env.system_query ∧
    (0 ≤ ((⟨"u1", ⟨none, none, none⟩, 9/10⟩ : DocumentSearchResult)).relevance_score ∧
      ((⟨"u1", ⟨none, none, none⟩, 9/10⟩ : DocumentSearchResult)).relevance_score ≤ 1) := by
  have hu : distances_in_unit c9w_env.user_query := by
    intro hits heq h hmem
    injection heq with heq'
    subst heq'
    rcases List.mem_singleton.mp hmem with rfl
    constructor <;> norm_num
  have hs : distances_in_unit c9w_env.system_query := by
    intro hits heq h hmem
    injection heq with heq'
    subst heq'
    rcases List.mem_singleton.mp hmem with rfl
    constructor <;> norm_num
  refine ⟨hu, hs, ?_⟩
  apply C9_score_bounds c9w_env none none none 5 hu hs
  have hev : search_documents c9w_env none none none 5 =
      [⟨"u1", ⟨none, none, none⟩, 9/10⟩, ⟨"s1", ⟨none, none, none⟩, 1/2⟩] := by
    simp [search_documents, c9w_env, pooled_results, collection_results,
      matches_car_criteria, truthy_str, truthy_int, score_ge,
      List.insertionSort, List.orderedInsert]
    norm_num
  rw [hev]
  simp

/-- A well-formed optional filter/metadata string: never the empty string
(for which Python truthiness would differ from presence). -/
def wf_str (o : Option String) : Prop := ∀ x, o = some x → x ≠ ""

/-- A well-formed optional year: never 0 (for which Python truthiness
would differ from presence). -/
def wf_year (o : Option Int) : Prop := ∀ n, o = some n → n ≠ 0

set_option maxHeartbeats 2000000 in
/-- C7: for well-formed filters and metadata, a hit is kept exactly when
every field present on both sides matches — make and model up to
case-insensitive equality, year within an absolute difference of 3 — and a
field absent from either side never excludes the hit; the
{make BMW, year 2015} filter keeps a chunk tagged year 2012 and excludes
one tagged year 2020. -/
theorem C7_vehicle_filter (md : ChunkMeta) (mk mo : Option String)
    (yr : Option Int)
    (h1 : wf_str mk) (h2 : wf_str mo) (h3 : wf_year yr)
    (h4 : wf_str md.car_make) (h5 : wf_str md.car_model)
    (h6 : wf_year md.car_year) :
    (matches_car_criteria md mk mo yr = true ↔
      ((∀ a c, mk = some a → md.car_make = some c → c.toLower = a.toLower) ∧
       (∀ a c, mo = some a → md.car_model = some c → c.toLower = a.toLower) ∧
       (∀ y z, yr = some y → md.car_year = some z → (z - y).natAbs ≤ 3))) ∧
    matches_car_criteria ⟨some "BMW", none, some 2012⟩ (some "BMW") none
      (some 2015) = true ∧
    matches_car_criteria ⟨some "BMW", none, some 2020⟩ (some "BMW") none
      (some 2015) = false := by
  refine ⟨?_, by simp [matches_car_criteria, truthy_str, truthy_int],
    by simp [matches_car_criteria, truthy_str, truthy_int]⟩
  obtain ⟨mma, mmo, mmy⟩ := md
  simp only [wf_str, wf_year] at h1 h2 h3 h4 h5 h6
  unfold matches_car_criteria truthy_str truthy_int
  rcases mk with _ | a <;> rcases mo with _ | b <;> rcases yr with _ | y <;>
    rcases mma with _ | ma <;> rcases mmo with _ | mb <;> rcases mmy with _ | my <;>
    simp_all

/-- C7 witness: the kept-iff-matching equivalence instantiated on a
concrete filter and chunk (filter make BMW, year 2015; chunk make bmw,
year 2013). -/
theorem C7_vehicle_filter_witness :
    wf_str (some "BMW") ∧ wf_str (none : Option String) ∧
    wf_year (some 2015) ∧ wf_str (some "bmw") ∧
    wf_str (none : Option String) ∧ wf_year (some 2013) ∧
    (matches_car_criteria ⟨some "bmw", none, some 2013⟩ (some "BMW") none
        (some 2015) = true ↔
      ((∀ a c, (some "BMW" : Option String) = some a →
        (some "bmw" : Option String) = some c → c.toLower = a.toLower) ∧
       (∀ a c, (none : Option String) = some a →
        (none : Option String) = some c → c.toLower = a.toLower) ∧
       (∀ y z, (some 2015 : Option Int) = some y →
        (some 2013 : Option Int) = some z → (z - y).natAbs ≤ 3))) := by
  have w1 : wf_str (some "BMW") := by
    intro x h
    injection h with h'
    subst h'
    decide
  have w2 : wf_str (none : Option String) := fun x h => nomatch h
  have w3 : wf_year (some 2015) := by
    intro n h
    injection h with h'
    subst h'
    decide
  have w4 : wf_str (some "bmw") := by
    intro x h
    injection h with h'
    subst h'
    decide
  have w6 : wf_year (some 2013) := by
    intro n h
    injection h with h'
    subst h'
    decide
  exact ⟨w1, w2, w3, w4, w2, w6,
    (C7_vehicle_filter ⟨some "bmw", none, some 2013⟩ (some "BMW") none
      (some 2015) w1 w2 w3 w4 w2 w6).1⟩

theorem bump_counter_same (r : DailyRow) (ut : UsageType) :
    counter_of (bump_counter r ut) ut = counter_of r ut + 1 := by
  cases ut <;> rfl

theorem bump_counter_other (r : DailyRow) {ut k : UsageType} (h : k ≠ ut) :
    counter_of (bump_counter r ut) k = counter_of r k := by
  cases ut <;> cases k <;> first | exact absurd rfl h | rfl

theorem bump_counter_fields (r : DailyRow) (ut : UsageType) :
    (bump_counter r ut).id = r.id ∧ (bump_counter r ut).user_id = r.user_id ∧
      (bump_counter r ut).date = r.date ∧
      (bump_counter r ut).total_cost_cents = r.total_cost_cents := by
  cases ut <;> exact ⟨rfl, rfl, rfl, rfl⟩

theorem new_row_counter_same (uid : String) (today : CalendarDate)
    (ut : UsageType) (cost : Int) (i : Nat) :
    counter_of (new_daily_row uid today ut cost i) ut = 1 := by
  cases ut <;> rfl

theorem new_row_counter_other (uid : String) (today : CalendarDate)
    {ut k : UsageType} (cost : Int) (i : Nat) (h : k ≠ ut) :
    counter_of (new_daily_row uid today ut cost i) k = 0 := by
  cases ut <;> cases k <;> first | exact absurd rfl h | rfl

theorem filter_map_update (l : List DailyRow) (r0 upd : DailyRow)
    (p : DailyRow → Bool)
    (hids : l.Pairwise (fun a b => a.id ≠ b.id))
    (hr0 : r0 ∈ l) (hpr0 : p r0 = true)
    (huniq : ∀ x ∈ l, p x = true → x = r0)
    (hpu : p upd = true) :
    (l.map (fun x => if x.id == r0.id then upd else x)).filter p = [upd] := by
  induction l with
  | nil => cases hr0
  | cons x t ih =>
    have hpw := List.pairwise_cons.mp hids
    by_cases hpx : p x = true
    · obtain rfl : x = r0 := huniq x (List.mem_cons_self x t) hpx
      have hnil : (t.map (fun y => if y.id == x.id then upd else y)).filter p = [] := by
        rw [List.filter_eq_nil_iff]
        intro y hy
        rcases List.mem_map.mp hy with ⟨z, hz, rfl⟩
        have hzid : ¬(z.id == x.id) = true := by
          simp only [beq_iff_eq]
          exact fun he => (hpw.1 z hz) he.symm
        rw [if_neg hzid]
        intro hpz
        have := huniq z (List.mem_cons_of_mem x hz) hpz
        exact (hpw.1 z hz) (this ▸ rfl)
      simp only [List.map_cons, beq_self_eq_true, if_true, List.filter_cons,
        hpu, if_pos, hnil]
    · have hxr : r0 ∈ t := by
        rcases List.mem_cons.mp hr0 with h | h
        · rw [← h] at hpx; exact absurd hpr0 hpx
        · exact h
      have hxid : ¬(x.id == r0.id) = true := by
        simp only [beq_iff_eq]
        exact hpw.1 r0 hxr
      simp only [List.map_cons, if_neg hxid, List.filter_cons]
      rw [if_neg (by simp [hpx])]
      exact ih (List.pairwise_cons.mp hids).2 hxr
        (fun y hy hpy => huniq y (List.mem_cons_of_mem x hy) hpy)

theorem mem_map_update_iff (l : List DailyRow) (r0 upd : DailyRow)
    (p : DailyRow → Bool)
    (hids : l.Pairwise (fun a b => a.id ≠ b.id))
    (hr0 : r0 ∈ l) (hpr0 : p r0 = true) (hpu : p upd = true) :
    ∀ x : DailyRow, p x = false →
      (x ∈ l.map (fun y => if y.id == r0.id then upd else y) ↔ x ∈ l) := by
  intro x hpx
  constructor
  · intro hx
    rcases List.mem_map.mp hx with ⟨z, hz, hgz⟩
    by_cases hid : (z.id == r0.id) = true
    · rw [if_pos hid] at hgz
      subst hgz
      rw [hpu] at hpx
      cases hpx
    · rw [if_neg hid] at hgz
      subst hgz
      exact hz
  · intro hx
    have hxr : x ≠ r0 := by
      intro he
      rw [he, hpr0] at hpx
      cases hpx
    have hxid : x.id ≠ r0.id := by
      have hsymm : Symmetric (fun a b : DailyRow => a.id ≠ b.id) :=
        fun a b h he => h he.symm
      exact List.Pairwise.forall hsymm hids hx hr0 hxr
    have hgx : (fun y : DailyRow => if y.id == r0.id then upd else y) x = x := by
      show (if (x.id == r0.id) = true then upd else x) = x
      rw [if_neg (by simp [hxid])]
    exact hgx ▸ List.mem_map_of_mem _ hx

/-- C10: a successful fault-free `track_usage(user, kind)` call increments
exactly the kind's counter of the (user, today) daily row by 1, leaving
its other counter fields and every other row unchanged; when no row exists
a fresh row is appended with the kind's counter 1 and the others 0. -/
theorem C10_track_usage_increment (s : Store) (now : Int)
    (today : CalendarDate) (uid : String) (ut : UsageType)
    (hdb : s.supabase = true) (hwf : wf_daily s) :
    (track_usage noFault s now today uid ut).1 = true ∧
    (∀ r0 : DailyRow, daily_row_for s uid today = some r0 →
      ∃ r' : DailyRow,
        daily_row_for (track_usage noFault s now today uid ut).2 uid today =
          some r' ∧
        counter_of r' ut = counter_of r0 ut + 1 ∧
        (∀ k : UsageType, k ≠ ut → counter_of r' k = counter_of r0 k) ∧
        r'.total_cost_cents = r0.total_cost_cents ∧
        r'.user_id = r0.user_id ∧ r'.date = r0.date ∧
        ((track_usage noFault s now today uid ut).2).daily.length =
          s.daily.length ∧
        (∀ x : DailyRow, (x.user_id == uid && x.date == today) = false →
          (x ∈ ((track_usage noFault s now today uid ut).2).daily ↔
            x ∈ s.daily))) ∧
    (daily_row_for s uid today = none →
      ∃ r' : DailyRow,
        ((track_usage noFault s now today uid ut).2).daily = s.daily ++ [r'] ∧
        counter_of r' ut = 1 ∧
        (∀ k : UsageType, k ≠ ut → counter_of r' k = 0) ∧
        r'.total_cost_cents = 0 ∧ r'.user_id = uid ∧ r'.date = today) := by
  have hf := get_user_tier_frame noFault s now uid
  have htr : track_usage noFault s now today uid ut =
      (true, update_daily_stats noFault
        { (get_user_tier noFault s now uid).2 with
            usage_records :=
              (get_user_tier noFault s now uid).2.usage_records + 1 }
        today uid ut 0) := by
    unfold track_usage dbInsertUsageRecord
    simp [hdb, noFault_eq]
  set s2 : Store :=
    { (get_user_tier noFault s now uid).2 with
        usage_records := (get_user_tier noFault s now uid).2.usage_records + 1 }
    with hs2
  have hs2d : s2.daily = s.daily := hf.2.1
  have hs2n : s2.next_id = s.next_id := hf.2.2.2.2
  refine ⟨by rw [htr], ?_, ?_⟩
  · intro r0 hrow
    have hfil0 : ((s.daily.filter
        (fun r => r.user_id == uid && r.date == today)).head?) = some r0 := hrow
    obtain ⟨rest, hfil⟩ : ∃ rest, s.daily.filter
        (fun r => r.user_id == uid && r.date == today) = r0 :: rest := by
      cases hq : s.daily.filter (fun r => r.user_id == uid && r.date == today) with
      | nil => rw [hq] at hfil0; cases hfil0
      | cons a as =>
        rw [hq] at hfil0
        injection hfil0 with h'
        subst h'
        exact ⟨as, rfl⟩
    have hr0f := List.mem_filter.mp (hfil ▸ List.mem_cons_self r0 rest)
    have hr0mem : r0 ∈ s.daily := hr0f.1
    have hpr0 : (r0.user_id == uid && r0.date == today) = true := hr0f.2
    have huniq : ∀ x ∈ s.daily,
        (x.user_id == uid && x.date == today) = true → x = r0 := by
      intro x hx hpx
      have hx1 : x.user_id = uid ∧ x.date = today := by simpa using hpx
      have hr1 : r0.user_id = uid ∧ r0.date = today := by simpa using hpr0
      exact hwf.2 x hx r0 hr0mem (hx1.1.trans hr1.1.symm)
        (hx1.2.trans hr1.2.symm)
    set upd : DailyRow :=
      { bump_counter r0 ut with
          total_cost_cents := (bump_counter r0 ut).total_cost_cents + 0 }
      with hupd
    have hbf := bump_counter_fields r0 ut
    have hpupd : (upd.user_id == uid && upd.date == today) = true := by
      show ((bump_counter r0 ut).user_id == uid &&
        ((bump_counter r0 ut).date == today)) = true
      rw [hbf.2.1, hbf.2.2.1]
      exact hpr0
    have hst : (track_usage noFault s now today uid ut).2 =
        { s2 with daily :=
            List.map (fun x => if x.id == r0.id then upd else x) s.daily } := by
      rw [htr]
      show update_daily_stats noFault s2 today uid ut 0 = _
      unfold update_daily_stats update_daily_stats_body dbSelectDaily dbUpdateDaily
      simp only [noFault_eq, Bool.false_eq_true, if_false, hf.2.1, hfil]
    refine ⟨upd, ?_, ?_, ?_, ?_, ?_, ?_, ?_, ?_⟩
    · show (((track_usage noFault s now today uid ut).2).daily.filter
        (fun r => r.user_id == uid && r.date == today)).head? = some upd
      rw [hst]
      show ((s.daily.map (fun x => if x.id == r0.id then upd else x)).filter
        (fun r => r.user_id == uid && r.date == today)).head? = some upd
      rw [filter_map_update s.daily r0 upd
        (fun r => r.user_id == uid && r.date == today) hwf.1 hr0mem hpr0
        huniq hpupd]
      rfl
    · have hcs : counter_of upd ut = counter_of (bump_counter r0 ut) ut := by
        cases ut <;> rfl
      rw [hcs, bump_counter_same]
    · intro k hk
      have hck : counter_of upd k = counter_of (bump_counter r0 ut) k := by
        cases k <;> rfl
      rw [hck, bump_counter_other r0 hk]
    · show (bump_counter r0 ut).total_cost_cents + 0 = r0.total_cost_cents
      rw [add_zero]
      exact hbf.2.2.2
    · exact hbf.2.1
    · exact hbf.2.2.1
    · rw [hst]
      exact List.length_map _ _
    · intro x hpx
      rw [hst]
      show x ∈ s.daily.map (fun y => if y.id == r0.id then upd else y) ↔
        x ∈ s.daily
      exact mem_map_update_iff s.daily r0 upd
        (fun r => r.user_id == uid && r.date == today) hwf.1 hr0mem hpr0
        hpupd x hpx
  · intro hrow
    have hfil : s.daily.filter
        (fun r => r.user_id == uid && r.date == today) = [] := by
      cases hq : s.daily.filter (fun r => r.user_id == uid && r.date == today) with
      | nil => rfl
      | cons a as =>
        have : ((s.daily.filter
            (fun r => r.user_id == uid && r.date == today)).head?) = none := hrow
        rw [hq] at this
        cases this
    have hst : (track_usage noFault s now today uid ut).2 =
        { s2 with
            daily := (s.daily ++ [new_daily_row uid today ut 0 s.next_id])
            next_id := (s.next_id + 1) } := by
      rw [htr]
      show update_daily_stats noFault s2 today uid ut 0 = _
      unfold update_daily_stats update_daily_stats_body dbSelectDaily dbInsertDaily
      simp only [noFault_eq, Bool.false_eq_true, if_false, hf.2.1, hf.2.2.2.2, hfil]
    refine ⟨new_daily_row uid today ut 0 s.next_id, ?_,
      new_row_counter_same uid today ut 0 s.next_id, ?_, rfl, rfl, rfl⟩
    · rw [hst]
    · intro k hk
      exact new_row_counter_other uid today 0 s.next_id hk

/-- C10 witness: tracking an ask on the concrete free-tier store with one
well-formed daily row succeeds. -/
theorem C10_track_usage_increment_witness :
    c1_store.supabase = true ∧ wf_daily c1_store ∧
    (track_usage noFault c1_store 0 c1_date "u" .ASK_QUERY).1 = true := by
  have hwf : wf_daily c1_store := by
    constructor
    · simp [c1_store]
    · intro a ha b hb _ _
      simp [c1_store] at ha hb
      rw [ha, hb]
  exact ⟨rfl, hwf,
    (C10_track_usage_increment c1_store 0 c1_date "u" .ASK_QUERY rfl hwf).1⟩
